import Mathlib

/-!
Shallow embedding of the send_cells crate.

The embedding covers `UnsafeSendCell` (src/unsafe_send_cell.rs), `SendCell`
and `SendFuture` (src/send_cell.rs), `UnsafeSyncCell` and `SyncCell`
(src/unsafe_sync_cell.rs, src/sync_cell.rs).

Modelling conventions:
* a thread identity (`std::thread::ThreadId`) is a natural number; the
  ambient current thread is passed explicitly as a `cur : ThreadId`
  argument to every operation that calls `crate::sys::thread::current().id()`,
  and to every operation that (implicitly) drops a `SendCell`, since the
  `Drop` impl also reads the current thread;
* a panic (assertion failure, `expect` failure, poisoned-mutex `unwrap`)
  is an abnormal termination of the calling context, modelled as the
  `Except.error` branch of the result;
* `std::mem::needs_drop::<T>()` is a compile-time constant of the Rust
  type `T`; Lean types carry no drop glue, so it is passed as an explicit
  `needsDrop : Bool` argument wherever the source consults it;
* references are modelled by the value they point to: `get : &T` returns
  the pointed-to value, a mutable-reference closure is a function from the
  old value to the new value.
-/

/-- Thread identity: an opaque, equality-comparable identifier of a thread
of execution (`std::thread::ThreadId` on native, `wasm_thread` id on wasm). -/
abbrev ThreadId := Nat

/-- The distinct panics the send_cell / sync_cell code can raise:
`threadMismatch` is the `assert_eq!` in `SendCell::{get, get_mut, into_inner}`;
`dropMismatch` is the `assert_eq!` in `impl Drop for SendCell`;
`gone` is the `expect("gone")` / `expect("inner value missing")` on an
emptied slot; `hasDropGlue` is the `assert!` in `UnsafeSendCell::new`. -/
inductive Panic where
  | threadMismatch
  | dropMismatch
  | gone
  | hasDropGlue
  deriving DecidableEq, Repr

/-- `UnsafeSendCell<T>(T)`: a bare single-field holder that claims `Send`
without any runtime verification (src/unsafe_send_cell.rs). -/
structure UnsafeSendCell (T : Type) where
  val : T
  deriving DecidableEq, Repr

/-- `UnsafeSendCell::new_unchecked(value)`: always succeeds, establishes no
proof. -/
def UnsafeSendCell.new_unchecked {T : Type} (value : T) : UnsafeSendCell T :=
  UnsafeSendCell.mk value

/-- `UnsafeSendCell::new(value)`: asserts `!std::mem::needs_drop::<T>()`,
panicking when `T` has drop glue, and otherwise wraps the value. -/
def UnsafeSendCell.new {T : Type} (needsDrop : Bool) (value : T) :
    Except Panic (UnsafeSendCell T) :=
  if needsDrop then Except.error Panic.hasDropGlue
  else Except.ok (UnsafeSendCell.mk value)

/-- `UnsafeSendCell::get(&self) -> &T`. -/
def UnsafeSendCell.get {T : Type} (c : UnsafeSendCell T) : T := c.val

/-- `UnsafeSendCell::get_mut(&mut self) -> &mut T` (the reference's target). -/
def UnsafeSendCell.get_mut {T : Type} (c : UnsafeSendCell T) : T := c.val

/-- `UnsafeSendCell::into_inner(self) -> T`. -/
def UnsafeSendCell.into_inner {T : Type} (c : UnsafeSendCell T) : T := c.val

/-- `SendCell<T>`: an `Option`al `UnsafeSendCell` slot plus the thread
identity recorded at construction (src/send_cell.rs). -/
structure SendCell (T : Type) where
  inner : Option (UnsafeSendCell T)
  thread_id : ThreadId
  deriving DecidableEq, Repr

/-- `SendCell::new(t)`: remembers the current thread and stores the value
(via `UnsafeSendCell::new_unchecked`); always succeeds. -/
def SendCell.new {T : Type} (cur : ThreadId) (t : T) : SendCell T :=
  SendCell.mk (some (UnsafeSendCell.new_unchecked t)) cur

/-- `SendCell::get_unchecked(&self)`: no thread check; `expect("gone")` on
an emptied slot, then delegates to `UnsafeSendCell::get`. -/
def SendCell.get_unchecked {T : Type} (c : SendCell T) : Except Panic T :=
  match c.inner with
  | some u => Except.ok u.get
  | none => Except.error Panic.gone

/-- `SendCell::get(&self)`: asserts the recorded thread equals the current
thread, then delegates to `get_unchecked`. -/
def SendCell.get {T : Type} (c : SendCell T) (cur : ThreadId) : Except Panic T :=
  if c.thread_id = cur then c.get_unchecked
  else Except.error Panic.threadMismatch

/-- `SendCell::get_unchecked_mut(&mut self)`: no thread check;
`expect("gone")`, then `UnsafeSendCell::get_mut`. -/
def SendCell.get_unchecked_mut {T : Type} (c : SendCell T) : Except Panic T :=
  match c.inner with
  | some u => Except.ok u.get_mut
  | none => Except.error Panic.gone

/-- `SendCell::get_mut(&mut self)`: thread assertion, then
`get_unchecked_mut`. -/
def SendCell.get_mut {T : Type} (c : SendCell T) (cur : ThreadId) : Except Panic T :=
  if c.thread_id = cur then c.get_unchecked_mut
  else Except.error Panic.threadMismatch

/-- `SendCell::into_unchecked_inner(mut self)`: takes the slot
(`expect("gone")` if empty) and returns the value via
`UnsafeSendCell::into_inner`.  The consumed `self` (slot now empty) is
dropped when the function returns, and `impl Drop for SendCell` asserts the
recorded thread identity whenever `std::mem::needs_drop::<T>()`, so the
call still panics on a foreign thread when `T` has drop glue. -/
def SendCell.into_unchecked_inner {T : Type} (c : SendCell T) (cur : ThreadId)
    (needsDrop : Bool) : Except Panic T :=
  match c.inner with
  | none => Except.error Panic.gone
  | some u =>
    if needsDrop then
      if c.thread_id = cur then Except.ok u.into_inner
      else Except.error Panic.dropMismatch
    else Except.ok u.into_inner

/-- `SendCell::into_inner(self)`: thread assertion, then
`into_unchecked_inner`. -/
def SendCell.into_inner {T : Type} (c : SendCell T) (cur : ThreadId)
    (needsDrop : Bool) : Except Panic T :=
  if c.thread_id = cur then c.into_unchecked_inner cur needsDrop
  else Except.error Panic.threadMismatch

/-- `SendCell::preserving_cell_thread(&self, new)`: a sibling cell carrying
the new value under the original cell's recorded thread identity; performs
no check of the calling thread (it never reads the current thread). -/
def SendCell.preserving_cell_thread {T U : Type} (c : SendCell T) (new : U) :
    SendCell U :=
  SendCell.mk (some (UnsafeSendCell.new_unchecked new)) c.thread_id

/-- `SendCell::copying(&self)` (for `T: Copy`): reads the value with
`get_unchecked` and feeds it through `preserving_cell_thread`. -/
def SendCell.copying {T : Type} (c : SendCell T) : Except Panic (SendCell T) :=
  match c.get_unchecked with
  | Except.ok v => Except.ok (c.preserving_cell_thread v)
  | Except.error e => Except.error e

/-- Outcome of running the drop glue of a `SendCell`: whether
`impl Drop for SendCell`'s assertion panicked, and the list of contained
values whose own teardown (field drop glue) ran before any panic. -/
structure DropResult (T : Type) where
  panicked : Bool
  teardownRan : List T
  deriving DecidableEq, Repr

/-- Dropping a `SendCell` on thread `cur`: `Drop::drop` asserts the
recorded identity whenever `std::mem::needs_drop::<T>()` (even when the
slot is empty); the assertion fires before the `Option<UnsafeSendCell<T>>`
field's drop glue tears down the contained value. -/
def SendCell.dropCell {T : Type} (c : SendCell T) (cur : ThreadId)
    (needsDrop : Bool) : DropResult T :=
  if needsDrop then
    if c.thread_id = cur then
      DropResult.mk false (c.inner.map UnsafeSendCell.val).toList
    else DropResult.mk true []
  else DropResult.mk false []

/-- `SendFuture<T>`: the future produced by `SendCell::into_future`,
holding the taken `UnsafeSendCell` and the recorded thread identity. -/
structure SendFuture (T : Type) where
  inner : UnsafeSendCell T
  thread_id : ThreadId
  deriving DecidableEq, Repr

/-- `SendCell::into_future(mut self)`: takes the slot
(`expect("inner value missing")`) and builds a `SendFuture` carrying the
same recorded identity, with no explicit thread check; the consumed `self`
(slot now empty) is then dropped, and `impl Drop for SendCell` asserts the
identity whenever `T` has drop glue. -/
def SendCell.into_future {T : Type} (c : SendCell T) (cur : ThreadId)
    (needsDrop : Bool) : Except Panic (SendFuture T) :=
  match c.inner with
  | none => Except.error Panic.gone
  | some u =>
    if needsDrop then
      if c.thread_id = cur then Except.ok (SendFuture.mk u c.thread_id)
      else Except.error Panic.dropMismatch
    else Except.ok (SendFuture.mk u c.thread_id)

/-- `impl Debug for SendCell`: `self.get().fmt(f)` — routes through the
checked `get`, then formats the value. -/
def SendCell.fmt {T : Type} (c : SendCell T) (cur : ThreadId)
    (dbg : T → String) : Except Panic String :=
  (c.get cur).map dbg

/-- `impl AsRef for SendCell`: `self.get()`. -/
def SendCell.as_ref {T : Type} (c : SendCell T) (cur : ThreadId) :
    Except Panic T :=
  c.get cur

/-- `impl AsMut for SendCell`: `self.get_mut()`. -/
def SendCell.as_mut {T : Type} (c : SendCell T) (cur : ThreadId) :
    Except Panic T :=
  c.get_mut cur

/-- `impl Deref for SendCell`: `self.get()`. -/
def SendCell.deref {T : Type} (c : SendCell T) (cur : ThreadId) :
    Except Panic T :=
  c.get cur

/-- `impl DerefMut for SendCell`: `self.get_mut()`. -/
def SendCell.deref_mut {T : Type} (c : SendCell T) (cur : ThreadId) :
    Except Panic T :=
  c.get_mut cur

/-- The panics a `SyncCell` access can raise: `poisonedLock` is the
`unwrap()` on `self.mutex.lock()` when the mutex is poisoned;
`closurePanicked` is a panic of the caller's closure propagating out of
`with` / `with_mut` while the guard is held. -/
inductive SyncPanic where
  | poisonedLock
  | closurePanicked
  deriving DecidableEq, Repr

/-- `UnsafeSyncCell<T>(UnsafeCell<T>)`: a bare holder that claims `Sync`
without any runtime verification (src/unsafe_sync_cell.rs). -/
structure UnsafeSyncCell (T : Type) where
  val : T
  deriving DecidableEq, Repr

/-- `UnsafeSyncCell::new(value)`. -/
def UnsafeSyncCell.new {T : Type} (value : T) : UnsafeSyncCell T :=
  UnsafeSyncCell.mk value

/-- `UnsafeSyncCell::get(&self) -> &T`. -/
def UnsafeSyncCell.get {T : Type} (c : UnsafeSyncCell T) : T := c.val

/-- `UnsafeSyncCell::get_mut_unchecked(&self) -> &mut T` (the target). -/
def UnsafeSyncCell.get_mut_unchecked {T : Type} (c : UnsafeSyncCell T) : T :=
  c.val

/-- `UnsafeSyncCell::into_inner(self) -> T`. -/
def UnsafeSyncCell.into_inner {T : Type} (c : UnsafeSyncCell T) : T := c.val

/-- `SyncCell<T>`: an `UnsafeSyncCell<T>` plus a `Mutex<()>` used purely
for sequencing (src/sync_cell.rs).  In this sequential embedding the only
observable state of the mutex is its poison flag. -/
structure SyncCell (T : Type) where
  inner : UnsafeSyncCell T
  poisoned : Bool
  deriving DecidableEq, Repr

/-- `SyncCell::new(value)`: wraps the value with an initially-unlocked,
unpoisoned mutex. -/
def SyncCell.new {T : Type} (value : T) : SyncCell T :=
  SyncCell.mk (UnsafeSyncCell.new value) false

/-- Result of a `with_mut` closure run to completion: it either returns a
result and leaves the value in a new state, or panics, leaving the value
in whatever (possibly half-mutated) state it reached. -/
inductive MutClosureResult (R T : Type) where
  | ret (r : R) (val : T)
  | panicked (val : T)

/-- `SyncCell::with(&self, f)`: `self.mutex.lock().unwrap()` — panicking
if the mutex is poisoned — then applies `f` to a shared reference to the
value and returns its result; a panic inside `f` propagates and poisons
the mutex (the guard is dropped during the unwind).  The closure argument
`f` models a closure that either returns normally (`Except.ok`) or panics
(`Except.error`).  The returned pair is (call outcome, cell state after
the call). -/
def SyncCell.with' {T R : Type} (c : SyncCell T) (f : T → Except Unit R) :
    Except SyncPanic R × SyncCell T :=
  if c.poisoned then (Except.error SyncPanic.poisonedLock, c)
  else
    match f c.inner.get with
    | Except.ok r => (Except.ok r, c)
    | Except.error _ => (Except.error SyncPanic.closurePanicked,
        SyncCell.mk c.inner true)

/-- `SyncCell::with_mut(&self, f)`: lock (panicking when poisoned), apply
`f` to a mutable reference (`get_mut_unchecked`), release; a panic inside
`f` propagates and poisons the mutex, keeping whatever mutation `f`
performed before panicking. -/
def SyncCell.with_mut {T R : Type} (c : SyncCell T)
    (f : T → MutClosureResult R T) : Except SyncPanic R × SyncCell T :=
  if c.poisoned then (Except.error SyncPanic.poisonedLock, c)
  else
    match f c.inner.get_mut_unchecked with
    | MutClosureResult.ret r v => (Except.ok r, SyncCell.mk (UnsafeSyncCell.mk v) false)
    | MutClosureResult.panicked v => (Except.error SyncPanic.closurePanicked,
        SyncCell.mk (UnsafeSyncCell.mk v) true)

/-- `SyncCell::into_inner(self)`: consumes the cell and returns the value
with no locking and no poison check (`self.inner.into_inner()`). -/
def SyncCell.into_inner {T : Type} (c : SyncCell T) : T :=
  c.inner.into_inner

/-- One locking access to a `SyncCell`, result type erased: either a
`with` call or a `with_mut` call with its closure. -/
inductive SyncOp (T : Type) where
  | shared (f : T → Except Unit PUnit)
  | exclusive (f : T → MutClosureResult PUnit T)

/-- Run one locking access against a cell. -/
def SyncCell.runOp {T : Type} (c : SyncCell T) :
    SyncOp T → Except SyncPanic PUnit × SyncCell T
  | SyncOp.shared f => c.with' f
  | SyncOp.exclusive f => c.with_mut f

/-- Run a sequence of locking accesses, threading the cell state. -/
def SyncCell.runOps {T : Type} (c : SyncCell T) : List (SyncOp T) → SyncCell T
  | [] => c
  | op :: ops => ((c.runOp op).2).runOps ops

/-- Helper: a locking access against a poisoned cell fails at the
`lock().unwrap()` and leaves the cell untouched. -/
theorem SyncCell.runOp_poisoned {T : Type} (c : SyncCell T)
    (hp : c.poisoned = true) (op : SyncOp T) : (c.runOp op).2 = c := by
  cases op <;> simp [SyncCell.runOp, SyncCell.with', SyncCell.with_mut, hp]

/-- C1: a SendCell constructed on thread A and used from a distinct thread
B fails every checked operation: get, get_mut and into_inner panic on the
thread-identity mismatch and never return a result, and dropping the cell
from B when the contained type has drop glue panics before the contained
value's teardown runs (no teardown event occurs). -/
theorem sendCell_crossThread_fails {T : Type} (v : T) (A B : ThreadId)
    (nd : Bool) (h : A ≠ B) :
    (SendCell.new A v).get B = Except.error Panic.threadMismatch ∧
    (SendCell.new A v).get_mut B = Except.error Panic.threadMismatch ∧
    (SendCell.new A v).into_inner B nd = Except.error Panic.threadMismatch ∧
    (SendCell.new A v).dropCell B true = DropResult.mk true [] := by
  refine ⟨?_, ?_, ?_, ?_⟩ <;>
    simp [SendCell.new, SendCell.get, SendCell.get_mut, SendCell.into_inner,
      SendCell.dropCell, h]

/-- Witness for C1 at v = 42, A = 0, B = 1. -/
theorem sendCell_crossThread_fails_witness :
    (0 : ThreadId) ≠ 1 ∧
    (SendCell.new 0 (42 : Nat)).get 1 = Except.error Panic.threadMismatch :=
  ⟨by decide, (sendCell_crossThread_fails 42 0 1 false (by decide)).1⟩

/-- C2: a SendCell used on its construction thread always succeeds and
yields the stored value unchanged through get, get_mut and into_inner
(round trip new then into_inner gives the value back). -/
theorem sendCell_sameThread_roundtrip {T : Type} (v : T) (A : ThreadId)
    (nd : Bool) :
    (SendCell.new A v).get A = Except.ok v ∧
    (SendCell.new A v).get_mut A = Except.ok v ∧
    (SendCell.new A v).into_inner A nd = Except.ok v := by
  refine ⟨?_, ?_, ?_⟩ <;>
    simp [SendCell.new, SendCell.get, SendCell.get_mut, SendCell.into_inner,
      SendCell.get_unchecked, SendCell.get_unchecked_mut,
      SendCell.into_unchecked_inner, UnsafeSendCell.new_unchecked,
      UnsafeSendCell.get, UnsafeSendCell.get_mut, UnsafeSendCell.into_inner]

/-- C3: a closure panic inside with / with_mut while the lock is held
poisons the SyncCell; the poisoned state is absorbing — every subsequent
with / with_mut call fails at the lock instead of returning a value, the
cell stays poisoned, and no sequence of later with / with_mut calls
returns it to a working state. -/
theorem syncCell_poison_absorbing {T : Type} (c d : SyncCell T)
    (hp : c.poisoned = true) (hd : d.poisoned = false) :
    (∀ (R : Type) (f : T → Except Unit R),
        (c.with' f).1 = Except.error SyncPanic.poisonedLock ∧
        ((c.with' f).2).poisoned = true) ∧
    (∀ (R : Type) (g : T → MutClosureResult R T),
        (c.with_mut g).1 = Except.error SyncPanic.poisonedLock ∧
        ((c.with_mut g).2).poisoned = true) ∧
    (∀ ops : List (SyncOp T), (c.runOps ops).poisoned = true) ∧
    (∀ (R : Type) (f : T → Except Unit R), f d.inner.get = Except.error () →
        (d.with' f).1 = Except.error SyncPanic.closurePanicked ∧
        ((d.with' f).2).poisoned = true) ∧
    (∀ (R : Type) (g : T → MutClosureResult R T) (v : T),
        g d.inner.get_mut_unchecked = MutClosureResult.panicked v →
        (d.with_mut g).1 = Except.error SyncPanic.closurePanicked ∧
        ((d.with_mut g).2).poisoned = true) := by
  refine ⟨?_, ?_, ?_, ?_, ?_⟩
  · intro R f; simp [SyncCell.with', hp]
  · intro R g; simp [SyncCell.with_mut, hp]
  · intro ops
    induction ops with
    | nil => simpa [SyncCell.runOps] using hp
    | cons op ops ih =>
        simpa [SyncCell.runOps, SyncCell.runOp_poisoned c hp op] using ih
  · intro R f hf; simp [SyncCell.with', hd, hf]
  · intro R g v hg; simp [SyncCell.with_mut, hd, hg]

/-- Witness for C3 at the poisoned cell containing 0. -/
theorem syncCell_poison_absorbing_witness :
    ((SyncCell.mk (UnsafeSyncCell.mk (0 : Nat)) true).with'
        (fun t => Except.ok t)).1 = Except.error SyncPanic.poisonedLock :=
  ((syncCell_poison_absorbing (SyncCell.mk (UnsafeSyncCell.mk (0 : Nat)) true)
      (SyncCell.mk (UnsafeSyncCell.mk (0 : Nat)) false) rfl rfl).1
    Nat (fun t => Except.ok t)).1

/-- C4: with and with_mut on a freshly constructed (unpoisoned) SyncCell
apply the closure exactly once to the current wrapped value and return
exactly its result; a with_mut mutation is visible to every later access;
in particular new [1,2,3], with length = 3, with_mut push 4, then with
length = 4. -/
theorem syncCell_with_functional {T R : Type} (v : T) (r : T → R) (g : T → T) :
    (SyncCell.new v).with' (fun t => Except.ok (r t)) =
      (Except.ok (r v), SyncCell.new v) ∧
    (SyncCell.new v).with_mut (fun t => MutClosureResult.ret (r t) (g t)) =
      (Except.ok (r v), SyncCell.new (g v)) ∧
    ((((SyncCell.new v).with_mut
        (fun t => MutClosureResult.ret PUnit.unit (g t))).2).with'
        (fun t => Except.ok (r t))).1 = Except.ok (r (g v)) ∧
    ((SyncCell.new ([1, 2, 3] : List Nat)).with'
        (fun l => Except.ok l.length)).1 = Except.ok 3 ∧
    ((((((SyncCell.new ([1, 2, 3] : List Nat)).with'
        (fun l => Except.ok l.length)).2).with_mut
        (fun l => MutClosureResult.ret PUnit.unit (l ++ [4]))).2).with'
        (fun l => Except.ok l.length)).1 = Except.ok 4 :=
  ⟨rfl, rfl, rfl, rfl, rfl⟩

/-- C5 counterexample: into_unchecked_inner on a populated cell recorded on
thread 0, invoked from thread 1 with a contained type that has drop glue,
fails the calling context on the thread-identity assertion in the consumed
cell's destructor — refuting the claim that the unchecked twins never fail
on a thread-identity mismatch. -/
theorem sendCell_intoUncheckedInner_counterexample :
    (SendCell.mk (some (UnsafeSendCell.mk (42 : Nat))) 0).into_unchecked_inner
      1 true = Except.error Panic.dropMismatch := rfl

/-- C5 amended: get_unchecked and get_unchecked_mut perform no
thread-identity check and never fail on a mismatch; into_unchecked_inner
performs no explicit check and, when the contained type has no drop glue,
succeeds from every thread — but when the type has drop glue, the implicit
drop of the consumed cell asserts the recorded identity, so the call still
fails on a foreign thread. -/
theorem sendCell_unchecked_twins_amended {T : Type} (u : T)
    (tid cur : ThreadId) (h : cur ≠ tid) :
    (SendCell.mk (some (UnsafeSendCell.mk u)) tid).get_unchecked =
      Except.ok u ∧
    (SendCell.mk (some (UnsafeSendCell.mk u)) tid).get_unchecked_mut =
      Except.ok u ∧
    (SendCell.mk (some (UnsafeSendCell.mk u)) tid).into_unchecked_inner
      cur false = Except.ok u ∧
    (SendCell.mk (some (UnsafeSendCell.mk u)) tid).into_unchecked_inner
      cur true = Except.error Panic.dropMismatch := by
  have h' : ¬ (tid = cur) := fun hh => h hh.symm
  exact ⟨rfl, rfl, rfl, by simp [SendCell.into_unchecked_inner, h']⟩

/-- Witness for the amended C5 at u = 7, tid = 0, cur = 1. -/
theorem sendCell_unchecked_twins_amended_witness :
    (1 : ThreadId) ≠ 0 ∧
    (SendCell.mk (some (UnsafeSendCell.mk (7 : Nat))) 0).into_unchecked_inner
      1 true = Except.error Panic.dropMismatch :=
  ⟨by decide, (sendCell_unchecked_twins_amended 7 0 1 (by decide)).2.2.2⟩

/-- C6 counterexample: a poisoned SyncCell's consuming into_inner performs
no poison check and returns the wrapped value normally instead of failing,
refuting the claim that every access operation on a poisoned cell fails. -/
theorem syncCell_poisoned_intoInner_counterexample :
    (SyncCell.mk (UnsafeSyncCell.mk (42 : Nat)) true).poisoned = true ∧
    (SyncCell.mk (UnsafeSyncCell.mk (42 : Nat)) true).into_inner = 42 :=
  ⟨rfl, rfl⟩

/-- C6 amended: on a poisoned SyncCell every subsequent with / with_mut
call fails rather than returning a value, but the consuming into_inner is
not covered: it takes no lock, performs no poison check, and returns the
wrapped value. -/
theorem syncCell_poisoned_access_amended {T : Type} (c : SyncCell T)
    (hp : c.poisoned = true) :
    (∀ (R : Type) (f : T → Except Unit R),
        (c.with' f).1 = Except.error SyncPanic.poisonedLock) ∧
    (∀ (R : Type) (g : T → MutClosureResult R T),
        (c.with_mut g).1 = Except.error SyncPanic.poisonedLock) ∧
    c.into_inner = c.inner.val := by
  refine ⟨?_, ?_, rfl⟩
  · intro R f; simp [SyncCell.with', hp]
  · intro R g; simp [SyncCell.with_mut, hp]

/-- Witness for the amended C6 at the poisoned cell containing 5. -/
theorem syncCell_poisoned_access_amended_witness :
    ((SyncCell.mk (UnsafeSyncCell.mk (5 : Nat)) true).with_mut
        (fun t => MutClosureResult.ret t t)).1 =
      Except.error SyncPanic.poisonedLock :=
  (syncCell_poisoned_access_amended
      (SyncCell.mk (UnsafeSyncCell.mk (5 : Nat)) true) rfl).2.1
    Nat (fun t => MutClosureResult.ret t t)

/-- C7: the safe constructor UnsafeSendCell::new succeeds exactly when the
wrapped type has no drop glue: it panics when needs_drop reports drop
glue, and otherwise produces the same cell as new_unchecked. -/
theorem cellNew_dropGlue_gate {T : Type} (v : T) :
    UnsafeSendCell.new true v =
      (Except.error Panic.hasDropGlue : Except Panic (UnsafeSendCell T)) ∧
    UnsafeSendCell.new false v = Except.ok (UnsafeSendCell.new_unchecked v) :=
  ⟨rfl, rfl⟩

/-- C8: preserving_cell_thread returns a cell recording the same thread
identity as the original and containing the new value, checking no thread;
a checked access on the derived cell succeeds exactly when performed on
the recorded thread, whatever thread derived it; and copying equals
reading uncheckedly and feeding the value through preserving_cell_thread. -/
theorem sendCell_preservingCellThread_spec {T U : Type} (c : SendCell T)
    (u : U) (cur : ThreadId) :
    (c.preserving_cell_thread u).thread_id = c.thread_id ∧
    (c.preserving_cell_thread u).inner = some (UnsafeSendCell.mk u) ∧
    ((c.preserving_cell_thread u).get cur = Except.ok u ↔
      cur = c.thread_id) ∧
    c.copying = Except.map c.preserving_cell_thread c.get_unchecked := by
  refine ⟨rfl, rfl, ?_, ?_⟩
  · by_cases h : c.thread_id = cur
    · simp [SendCell.preserving_cell_thread, SendCell.get,
        SendCell.get_unchecked, UnsafeSendCell.new_unchecked,
        UnsafeSendCell.get, h, eq_comm]
    · simp only [SendCell.preserving_cell_thread, SendCell.get, h,
        if_false, reduceCtorEq, false_iff]
      exact fun hh => h hh.symm
  · cases hc : c.inner <;>
      simp [SendCell.copying, SendCell.get_unchecked, Except.map, hc]

/-- C9: every shared- or exclusive-reference trait operation on SendCell —
Debug formatting, AsRef, AsMut, Deref, DerefMut — routes through the
checked accessors, so each of them invoked from a thread other than the
recorded one panics on the thread-identity assertion. -/
theorem sendCell_traitOps_checked {T : Type} (c : SendCell T)
    (cur : ThreadId) (dbg : T → String) (h : cur ≠ c.thread_id) :
    c.fmt cur dbg = Except.error Panic.threadMismatch ∧
    c.as_ref cur = Except.error Panic.threadMismatch ∧
    c.as_mut cur = Except.error Panic.threadMismatch ∧
    c.deref cur = Except.error Panic.threadMismatch ∧
    c.deref_mut cur = Except.error Panic.threadMismatch := by
  have h' : ¬ (c.thread_id = cur) := fun hh => h hh.symm
  refine ⟨?_, ?_, ?_, ?_, ?_⟩ <;>
    simp [SendCell.fmt, SendCell.as_ref, SendCell.as_mut, SendCell.deref,
      SendCell.deref_mut, SendCell.get, SendCell.get_mut, h', Except.map]

/-- Witness for C9 at a cell recorded on thread 0, accessed from thread 1. -/
theorem sendCell_traitOps_checked_witness :
    (1 : ThreadId) ≠ 0 ∧
    (SendCell.mk (some (UnsafeSendCell.mk (3 : Nat))) 0).fmt 1
      (fun _ => "") = Except.error Panic.threadMismatch :=
  ⟨by decide,
    (sendCell_traitOps_checked (SendCell.mk (some (UnsafeSendCell.mk 3)) 0)
        1 (fun _ => "") (by decide)).1⟩

/-- C10: SendCell's destructor asserts the recorded identity whenever the
wrapped type has drop glue even with the slot already emptied; hence
into_future called from a foreign thread on a drop-glue type panics when
the consumed, now-empty cell is dropped at the end of into_future, while
with no drop glue into_future succeeds from any thread (it performs no
explicit identity check) with the value moved out intact. -/
theorem sendCell_intoFuture_dropAssert {T : Type} (u : T)
    (tid cur : ThreadId) (h : cur ≠ tid) :
    (SendCell.mk (some (UnsafeSendCell.mk u)) tid).into_future cur true =
      Except.error Panic.dropMismatch ∧
    (SendCell.mk (some (UnsafeSendCell.mk u)) tid).into_future cur false =
      Except.ok (SendFuture.mk (UnsafeSendCell.mk u) tid) ∧
    (SendCell.mk (none : Option (UnsafeSendCell T)) tid).dropCell cur true =
      DropResult.mk true [] := by
  have h' : ¬ (tid = cur) := fun hh => h hh.symm
  refine ⟨?_, rfl, ?_⟩ <;> simp [SendCell.into_future, SendCell.dropCell, h']

/-- Witness for C10 at u = 9, tid = 0, cur = 1. -/
theorem sendCell_intoFuture_dropAssert_witness :
    (1 : ThreadId) ≠ 0 ∧
    (SendCell.mk (some (UnsafeSendCell.mk (9 : Nat))) 0).into_future 1 true =
      Except.error Panic.dropMismatch :=
  ⟨by decide, (sendCell_intoFuture_dropAssert 9 0 1 (by decide)).1⟩
